import Mathlib

/-!
Shallow embedding of pytest_cassandra.py (dwoz/pytest-cassandra).

The module provisions an ephemeral multi-node Cassandra cluster for
integration tests.  External effects (network interface queries, shell
commands, subprocesses) are modelled by an explicit environment record
whose fields give the outcome the operating system would report; the
functions below are direct translations of the Python methods over that
environment.
-/

namespace PytestCassandra

/-- Module-level constant CCM_KILLALL = False. -/
def CCM_KILLALL : Bool := false

/-- Module-level constant IP_PREFIX = "127.0.5.". -/
def IP_PREFIX : String := "127.0.5."

/-- Module-level constant NUM_NODES = 3. -/
def NUM_NODES : Nat := 3

/-- Abnormal outcomes of the Python control flow.
Constructor exc models a raised (catchable) Exception with its message;
nameError models a NameError or UnboundLocalError reached by referencing
an undefined variable; abort models pytest.exit(code), which terminates
the whole test run rather than raising a catchable error. -/
inductive PyErr where
  | exc : String → PyErr
  | nameError : String → PyErr
  | abort : Int → PyErr
deriving DecidableEq

/-- Platform adapter: the three OS-specific operations (classes
CCMPlatformDarwin and CCMPlatformLinux in the source).  The lo-prefix
constructor defaults of the source are inlined into the two instances. -/
structure CCMPlatform where
  mkiface : Nat → String
  add_ip_cmd : String → String → String
  rm_ip_cmd : String → String → String

/-- CCMPlatformDarwin with its default prefix "lo0". -/
def CCMPlatformDarwin : CCMPlatform where
  mkiface := fun _ => "lo0"
  add_ip_cmd := fun iface ip_addr => "sudo ifconfig " ++ iface ++ " alias " ++ ip_addr
  rm_ip_cmd := fun _ ip_addr => "sudo ifconfig lo0 -alias " ++ ip_addr

/-- CCMPlatformLinux with its default prefix "lo:auth_test". -/
def CCMPlatformLinux : CCMPlatform where
  mkiface := fun node => "lo:auth_test" ++ toString node
  add_ip_cmd := fun iface ip_addr =>
    "sudo ifconfig " ++ iface ++ " " ++ ip_addr ++ " netmask 255.0.0.0 up"
  rm_ip_cmd := fun iface _ => "sudo ifconfig " ++ iface ++ " down"

/-- A host process as seen through psutil: its name and its command line;
none for the command line models psutil.AccessDenied while reading it
(the source then leaves cmdline = []). -/
structure Proc where
  pname : String
  cmdline : Option (List String)
deriving DecidableEq

/-- Environment: the responses of the operating system and of subprocesses.
lb1 is the (interface, address) list returned by the first _loopbacks()
query of a method, lb2 the list returned by the re-query after the add
pass of _setup_loopbacks; addExit and rmExit give the exit codes of the
interface add and remove shell commands; procs lists the visible host
processes; createRaised, createStdout, createStderr and createRet give
the behaviour of the ccm create subprocess, and removeExit the exit code
of ccm remove. -/
structure Env where
  lb1 : List (String × String) := []
  lb2 : List (String × String) := []
  addExit : String → String → Int := fun _ _ => 0
  rmExit : String → String → Int := fun _ _ => 0
  procs : List Proc := []
  createRaised : Bool := false
  createStdout : String := ""
  createStderr : String := ""
  createRet : Int := 0
  removeExit : Int := 0

/-- The CCMCluster fixture object: the fields set by CCMCluster.__init__
with their default values.  The platforms dictionary and the _platform
lookup by sys.platform are abstracted to the selected adapter. -/
structure CCMCluster where
  name : String := ""
  nodes : Nat := NUM_NODES
  initialized : Bool := false
  manage_cluster : Bool := false
  debug : Bool := true
  manage_interfaces : Bool := false
  killall : Bool := CCM_KILLALL
  ip_prefix : String := IP_PREFIX
  platform : CCMPlatform := CCMPlatformLinux

/-- CCMCluster._mkiface: delegate to the platform adapter. -/
def CCMCluster._mkiface (c : CCMCluster) (node_num : Nat) : String :=
  c.platform.mkiface node_num

/-- CCMCluster._mkaddr: string formatting of the prefix followed by the
node number plus one. -/
def CCMCluster._mkaddr (c : CCMCluster) (node_num : Nat) : String :=
  c.ip_prefix ++ toString (node_num + 1)

/-- CCMCluster._add_ip_cmd: delegate to the platform adapter. -/
def CCMCluster._add_ip_cmd (c : CCMCluster) (iface ip_addr : String) : String :=
  c.platform.add_ip_cmd iface ip_addr

/-- CCMCluster._add_ip_addr: run the add command; a nonzero exit code
raises Exception("Failed to add IP"). -/
def CCMCluster._add_ip_addr (c : CCMCluster) (env : Env) (iface ip_addr : String) :
    Except PyErr Unit :=
  if env.addExit iface ip_addr = 0 then Except.ok ()
  else Except.error (PyErr.exc "Failed to add IP")

/-- The missing list built by CCMCluster._check_loopbacks: one add
command appended per node index whose (interface, address) binding is
absent from the queried loopbacks. -/
def CCMCluster._check_loopbacks_missing (c : CCMCluster) (lb : List (String × String)) :
    List String :=
  (List.range c.nodes).foldl
    (fun missing x =>
      let iface := c._mkiface x
      let ip_addr := c._mkaddr x
      if (iface, ip_addr) ∈ lb then missing
      else missing ++ [c._add_ip_cmd iface ip_addr])
    []

/-- CCMCluster._check_loopbacks: when the missing list is nonempty the
remediation commands are printed and pytest.exit(1) aborts the run;
otherwise the method returns normally. -/
def CCMCluster._check_loopbacks (c : CCMCluster) (lb : List (String × String)) :
    Except PyErr Unit :=
  if c._check_loopbacks_missing lb = [] then Except.ok ()
  else Except.error (PyErr.abort 1)

/-- First loop of CCMCluster._setup_loopbacks: for each node index whose
binding is absent from the first loopback query, run _add_ip_addr.  The
returned list records the bindings whose add command was attempted; a
failed add raises and stops the loop. -/
def CCMCluster._setup_loopbacks_add_pass (c : CCMCluster) (env : Env) :
    List Nat → List (String × String) × Except PyErr Unit
  | [] => ([], Except.ok ())
  | x :: xs =>
    let iface := c._mkiface x
    let ip_addr := c._mkaddr x
    if (iface, ip_addr) ∈ env.lb1 then
      CCMCluster._setup_loopbacks_add_pass c env xs
    else
      match c._add_ip_addr env iface ip_addr with
      | Except.error e => ([(iface, ip_addr)], Except.error e)
      | Except.ok _ =>
        let rest := CCMCluster._setup_loopbacks_add_pass c env xs
        ((iface, ip_addr) :: rest.1, rest.2)

/-- Second loop of CCMCluster._setup_loopbacks over the re-queried
loopbacks.  In the source the body of the still-missing branch is
missing.append(a), and no variable a is in scope anywhere in the module,
so reaching that branch raises NameError at the FIRST still-missing
binding; the subsequent accumulation and the final
raise Exception("CCM setup exception: missing address") are therefore
unreachable and do not appear here. -/
def CCMCluster._setup_loopbacks_verify_pass (c : CCMCluster) (env : Env) :
    List Nat → Except PyErr Unit
  | [] => Except.ok ()
  | x :: xs =>
    if (c._mkiface x, c._mkaddr x) ∈ env.lb2 then
      CCMCluster._setup_loopbacks_verify_pass c env xs
    else
      Except.error (PyErr.nameError "a")

/-- CCMCluster._setup_loopbacks: add pass over lb1, then, when no add
raised, the verification pass over the re-queried lb2. -/
def CCMCluster._setup_loopbacks (c : CCMCluster) (env : Env) :
    List (String × String) × Except PyErr Unit :=
  let first := c._setup_loopbacks_add_pass env (List.range c.nodes)
  match first.2 with
  | Except.error e => (first.1, Except.error e)
  | Except.ok _ => (first.1, c._setup_loopbacks_verify_pass env (List.range c.nodes))

/-- Loop of CCMCluster._teardown_loopbacks: remove the alias of each node
index in order; the returned list records the bindings whose remove
command was run, and a nonzero exit raises Exception("Failed to remove IP")
and stops the loop. -/
def CCMCluster._teardown_loopbacks_go (c : CCMCluster) (env : Env) :
    List Nat → List (String × String) × Except PyErr Unit
  | [] => ([], Except.ok ())
  | x :: xs =>
    let iface := c._mkiface x
    let ip_addr := c._mkaddr x
    if env.rmExit iface ip_addr = 0 then
      let rest := CCMCluster._teardown_loopbacks_go c env xs
      ((iface, ip_addr) :: rest.1, rest.2)
    else
      ([(iface, ip_addr)], Except.error (PyErr.exc "Failed to remove IP"))

/-- CCMCluster._teardown_loopbacks: the nodes parameter defaults to the
module-level constant NUM_NODES, exactly as in the source signature
def _teardown_loopbacks(self, nodes=NUM_NODES). -/
def CCMCluster._teardown_loopbacks (c : CCMCluster) (env : Env)
    (nodes : Nat := NUM_NODES) : List (String × String) × Except PyErr Unit :=
  c._teardown_loopbacks_go env (List.range nodes)

/-- The Cassandra daemon main class the source looks for in command lines. -/
def cassandraDaemonClass : String := "org.apache.cassandra.service.CassandraDaemon"

/-- CCMCluster._cmdline_matches: matches stays False unless the daemon
main class is an element of the command line; then the loop sets it to
True at the first argument arg with arg.find(self.name) != -1, that is,
the first argument containing the cluster name as a substring. -/
def CCMCluster._cmdline_matches (c : CCMCluster) (cmdline : List String) : Bool :=
  if cassandraDaemonClass ∈ cmdline then
    cmdline.any fun arg => decide (c.name.toList <:+: arg.toList)
  else
    false

/-- CCMCluster._cassandra_processes: keep the processes whose command
line matches; the command line starts out [], is read only for processes
named java, and stays [] on AccessDenied. -/
def CCMCluster._cassandra_processes (c : CCMCluster) (procs : List Proc) : List Proc :=
  procs.filter fun p =>
    let cmdline : List String :=
      if p.pname = "java" then p.cmdline.getD [] else []
    c._cmdline_matches cmdline

/-- Outcome of CCMCluster._check_state: the processes killed by the
killall branch and the control-flow result. -/
structure CheckOutcome where
  kills : List Proc
  result : Except PyErr Unit

/-- CCMCluster._check_state: setup-loopbacks when manage_interfaces,
otherwise check-loopbacks; then, when killall is set and some matching
process is running, kill every matching process. -/
def CCMCluster._check_state (c : CCMCluster) (env : Env) : CheckOutcome :=
  let r :=
    if c.manage_interfaces then (c._setup_loopbacks env).2
    else c._check_loopbacks env.lb1
  match r with
  | Except.error e => ⟨[], Except.error e⟩
  | Except.ok _ =>
    if c.killall = true ∧ (c._cassandra_processes env.procs).length ≠ 0 then
      ⟨c._cassandra_processes env.procs, Except.ok ()⟩
    else
      ⟨[], Except.ok ()⟩

/-- The shell command line built by CCMCluster._create_cluster. -/
def ccm_create_cmd (c : CCMCluster) : String :=
  "ccm create " ++ c.name ++ " --nodes 3 -v 3.7 -i \x27" ++ c.ip_prefix ++
    "\x27 --start --no-switch"

/-- Outcome of CCMCluster._create_cluster: the external commands spawned,
the captured output emitted to the operator, and the control-flow result. -/
structure CreateOutcome where
  cmds : List String
  writes : List String
  result : Except PyErr Unit

/-- CCMCluster._create_cluster.  An empty name raises before any
subprocess is spawned.  Otherwise the ccm create command runs; when
communicate or wait raises, the except clause unbinds the local e, so the
following test if e or ret != 0 itself dies with an UnboundLocalError on
e (modelled as nameError).  When the subprocess returns a nonzero code,
the captured stdout and stderr are written out and pytest.exit(ret)
terminates the test run with that code. -/
def CCMCluster._create_cluster (c : CCMCluster) (env : Env) : CreateOutcome :=
  if c.name = "" then
    ⟨[], [], Except.error (PyErr.exc "Set name before calling create cluster")⟩
  else if env.createRaised then
    ⟨[ccm_create_cmd c], [], Except.error (PyErr.nameError "e")⟩
  else if env.createRet = 0 then
    ⟨[ccm_create_cmd c], [], Except.ok ()⟩
  else
    ⟨[ccm_create_cmd c], [env.createStdout, env.createStderr],
      Except.error (PyErr.abort env.createRet)⟩

/-- CCMCluster._remove_cluster: run ccm remove; a nonzero exit raises
Exception("Problem removing test cluster").  The subsequent poll loop
waiting for matching processes to disappear terminates trivially here
because the modelled environment is static. -/
def CCMCluster._remove_cluster (c : CCMCluster) (env : Env) : Except PyErr Unit :=
  if env.removeExit = 0 then Except.ok ()
  else Except.error (PyErr.exc "Problem removing test cluster")

/-- The if args: self.name = args[0] prologue of CCMCluster.setup. -/
def CCMCluster.recordName (c : CCMCluster) (args : List String) : CCMCluster :=
  match args with
  | [] => c
  | a :: _ => { c with name := a }

/-- Outcome of CCMCluster.setup: the fixture state afterwards, how many
times _check_state and _create_cluster were entered, and the result
(ok (some true) is the early return True, ok none the implicit return
None). -/
structure SetupOutcome where
  state : CCMCluster
  checks : Nat
  creates : Nat
  result : Except PyErr (Option Bool)

/-- CCMCluster.setup: return True at once when already initialized;
otherwise record the name argument, run _check_state (whose exception
propagates with the flag still clear), then run _create_cluster inside
try/finally so that initialized becomes True whether or not creation
succeeded. -/
def CCMCluster.setup (c : CCMCluster) (env : Env) (args : List String) : SetupOutcome :=
  if c.initialized then
    ⟨c, 0, 0, Except.ok (some true)⟩
  else
    let c1 := c.recordName args
    match (c1._check_state env).result with
    | Except.error e => ⟨c1, 1, 0, Except.error e⟩
    | Except.ok _ =>
      let co := c1._create_cluster env
      let c2 := { c1 with initialized := true }
      match co.result with
      | Except.error e => ⟨c2, 1, 1, Except.error e⟩
      | Except.ok _ => ⟨c2, 1, 1, Except.ok none⟩

/-- Outcome of CCMCluster.teardown: the fixture state afterwards, how
many times _remove_cluster was entered, the bindings removed by
_teardown_loopbacks, and the result. -/
structure TeardownOutcome where
  state : CCMCluster
  removes : Nat
  removedAddrs : List (String × String)
  result : Except PyErr (Option Bool)

/-- CCMCluster.teardown: return True at once when not initialized;
otherwise remove the cluster and, when manage_interfaces, tear down the
loopback aliases (called without an argument, so with the NUM_NODES
default), all inside try/finally whose finally sets initialized = True
and re-runs _check_state.  Per Python semantics an exception raised in
the finally replaces the exception of the body. -/
def CCMCluster.teardown (c : CCMCluster) (env : Env) : TeardownOutcome :=
  if c.initialized then
    let body : Nat × (List (String × String) × Except PyErr Unit) :=
      match c._remove_cluster env with
      | Except.error e => (1, ([], Except.error e))
      | Except.ok _ =>
        if c.manage_interfaces then (1, c._teardown_loopbacks env)
        else (1, ([], Except.ok ()))
    let c2 := { c with initialized := true }
    let chk := c2._check_state env
    let result : Except PyErr (Option Bool) :=
      match chk.result with
      | Except.error e2 => Except.error e2
      | Except.ok _ =>
        match body.2.2 with
        | Except.error e1 => Except.error e1
        | Except.ok _ => Except.ok none
    ⟨c2, body.1, body.2.1, result⟩
  else
    ⟨c, 0, [], Except.ok (some true)⟩

/-- A concrete one-node cluster used by the witnesses. -/
def cOne : CCMCluster := { name := "tc", nodes := 1 }

/-- A concrete initialized cluster used by the witnesses. -/
def cInit : CCMCluster := { name := "tc", initialized := true }

/-- A concrete initialized five-node cluster with managed interfaces. -/
def cFive : CCMCluster :=
  { name := "tc", nodes := 5, initialized := true, manage_interfaces := true }

/-- A concrete one-node cluster with managed interfaces, used for the
setup-loopbacks divergence. -/
def cBug : CCMCluster := { name := "bug", nodes := 1, manage_interfaces := true }

/-- The all-defaults cluster, as constructed by CCMCluster() with no
arguments: its name is empty. -/
def cDefault : CCMCluster := {}

/-- A default environment: every command succeeds, no binding present. -/
def envDefault : Env := {}

/-- An environment whose loopbacks already hold the single binding that
cOne requires and whose subprocesses all succeed. -/
def envOk : Env := { lb1 := [("lo:auth_test0", "127.0.5.1")] }

/-- An environment holding the binding cOne requires but whose ccm create
subprocess exits with code 7. -/
def envFail : Env :=
  { lb1 := [("lo:auth_test0", "127.0.5.1")], createRet := 7,
    createStdout := "out", createStderr := "err" }

/-- C5: for every node count of at least one and every node index below
it, the generated node address equals the configured prefix string
followed by the decimal representation of the index plus one. -/
theorem mkaddr_eq_prefix_append_decimal (c : CCMCluster) (i : Nat)
    (_h1 : 1 ≤ c.nodes) (_h2 : i < c.nodes) :
    c._mkaddr i = c.ip_prefix ++ String.mk (Nat.toDigits 10 (i + 1)) := rfl

/-- C5 witness: the address theorem applied at the concrete one-node
cluster and index zero. -/
theorem mkaddr_eq_prefix_append_decimal_witness :
    1 ≤ cOne.nodes ∧ 0 < cOne.nodes ∧
    cOne._mkaddr 0 = cOne.ip_prefix ++ String.mk (Nat.toDigits 10 (0 + 1)) :=
  ⟨by decide, by decide, mkaddr_eq_prefix_append_decimal cOne 0 (by decide) (by decide)⟩

/-- C3: a command line is classified as a match exactly when the
Cassandra daemon main class is one of its arguments and some argument
contains the cluster name as a substring; a command line missing either
condition is not a match. -/
theorem cmdline_matches_iff (c : CCMCluster) (cmdline : List String) :
    c._cmdline_matches cmdline = true ↔
      (cassandraDaemonClass ∈ cmdline ∧
        ∃ arg ∈ cmdline, c.name.toList <:+: arg.toList) := by
  unfold CCMCluster._cmdline_matches
  by_cases h : cassandraDaemonClass ∈ cmdline
  · simp [h, List.any_eq_true]
  · simp [h]

/-- C9: with an empty cluster name, _create_cluster raises before any
external command is spawned. -/
theorem create_cluster_requires_name (c : CCMCluster) (env : Env) (h : c.name = "") :
    c._create_cluster env =
      ⟨[], [], Except.error (PyErr.exc "Set name before calling create cluster")⟩ := by
  unfold CCMCluster._create_cluster
  simp [h]

/-- C9 witness: the default cluster has an empty name and creation fails
with no command spawned. -/
theorem create_cluster_requires_name_witness :
    (cDefault.name = "") ∧
    cDefault._create_cluster envDefault =
      ⟨[], [], Except.error (PyErr.exc "Set name before calling create cluster")⟩ :=
  ⟨rfl, create_cluster_requires_name cDefault envDefault rfl⟩

/-- C4: when the creation subprocess exits nonzero (and communicate did
not raise), _create_cluster emits the captured stdout and stderr and
terminates the run via pytest.exit with that exact exit code, not via a
catchable exception. -/
theorem create_cluster_nonzero_exit_aborts (c : CCMCluster) (env : Env)
    (hname : ¬ c.name = "") (hr : env.createRaised = false)
    (hret : ¬ env.createRet = 0) :
    c._create_cluster env =
      ⟨[ccm_create_cmd c], [env.createStdout, env.createStderr],
        Except.error (PyErr.abort env.createRet)⟩ := by
  unfold CCMCluster._create_cluster
  simp [hname, hr, hret]

/-- C4 witness: the nonzero-exit theorem applied at the concrete
environment whose create subprocess exits with code 7. -/
theorem create_cluster_nonzero_exit_aborts_witness :
    (¬ cOne.name = "") ∧ envFail.createRaised = false ∧ (¬ envFail.createRet = 0) ∧
    cOne._create_cluster envFail =
      ⟨[ccm_create_cmd cOne], [envFail.createStdout, envFail.createStderr],
        Except.error (PyErr.abort envFail.createRet)⟩ :=
  ⟨by decide, rfl, by decide,
    create_cluster_nonzero_exit_aborts cOne envFail (by decide) rfl (by decide)⟩

/-- C2 divergence: with one node and no binding present before or after
the add pass (the add command itself exiting 0), _setup_loopbacks runs
the missing add and then, in the verification pass, raises NameError on
the undefined variable a at the first still-missing binding, instead of
collecting all still-missing bindings into a list and raising an error
listing them. -/
theorem setup_loopbacks_crashes_on_undefined_var :
    cBug._setup_loopbacks envDefault =
      ([("lo:auth_test0", "127.0.5.1")], Except.error (PyErr.nameError "a")) := by
  rfl

/-- The accumulating loop of _check_loopbacks, restated as a map over the
filtered list of missing node indices. -/
theorem check_loopbacks_missing_foldl (c : CCMCluster) (lb : List (String × String))
    (l : List Nat) (acc : List String) :
    l.foldl
      (fun missing x =>
        let iface := c._mkiface x
        let ip_addr := c._mkaddr x
        if (iface, ip_addr) ∈ lb then missing
        else missing ++ [c._add_ip_cmd iface ip_addr]) acc =
    acc ++ ((l.filter fun x => !(decide ((c._mkiface x, c._mkaddr x) ∈ lb))).map
      (fun x => c._add_ip_cmd (c._mkiface x) (c._mkaddr x))) := by
  induction l generalizing acc with
  | nil => simp
  | cons y ys ih =>
    by_cases h : (c._mkiface y, c._mkaddr y) ∈ lb
    · simp only [List.foldl_cons, List.filter_cons]
      simp [h, ih]
    · simp only [List.foldl_cons, List.filter_cons]
      simp [h, ih]

/-- C6: the remediation list holds exactly one add command per missing
node index, in index order; the check returns normally exactly when every
required binding is present; and otherwise the run is aborted via
pytest.exit(1), a nonzero exit rather than an exception. -/
theorem check_loopbacks_spec (c : CCMCluster) (lb : List (String × String)) :
    c._check_loopbacks_missing lb =
      ((List.range c.nodes).filter fun x =>
        !(decide ((c._mkiface x, c._mkaddr x) ∈ lb))).map
        (fun x => c._add_ip_cmd (c._mkiface x) (c._mkaddr x)) ∧
    (c._check_loopbacks lb = Except.ok () ↔
      ∀ x, x < c.nodes → (c._mkiface x, c._mkaddr x) ∈ lb) ∧
    (c._check_loopbacks lb = Except.ok () ∨
      c._check_loopbacks lb = Except.error (PyErr.abort 1)) := by
  have hm : c._check_loopbacks_missing lb =
      ((List.range c.nodes).filter fun x =>
        !(decide ((c._mkiface x, c._mkaddr x) ∈ lb))).map
        (fun x => c._add_ip_cmd (c._mkiface x) (c._mkaddr x)) := by
    unfold CCMCluster._check_loopbacks_missing
    simpa using check_loopbacks_missing_foldl c lb (List.range c.nodes) []
  have hiff : c._check_loopbacks lb = Except.ok () ↔
      c._check_loopbacks_missing lb = [] := by
    unfold CCMCluster._check_loopbacks
    by_cases h : c._check_loopbacks_missing lb = []
    · simp [h]
    · simp [h]
  refine ⟨hm, ?_, ?_⟩
  · rw [hiff, hm]
    simp [List.mem_range]
  · by_cases h : c._check_loopbacks_missing lb = []
    · exact Or.inl (by unfold CCMCluster._check_loopbacks; simp [h])
    · exact Or.inr (by unfold CCMCluster._check_loopbacks; simp [h])

/-- C1: starting uninitialized, when the state check of the first setup
call returns normally, that call runs cluster creation exactly once and
sets the initialized flag, so a second setup call returns True
immediately, running neither the state check nor the creation. -/
theorem setup_twice_single_create (c : CCMCluster) (env env2 : Env)
    (args args2 : List String)
    (hinit : c.initialized = false)
    (hchk : ((c.recordName args)._check_state env).result = Except.ok ()) :
    (c.setup env args).creates = 1 ∧
    (c.setup env args).state.initialized = true ∧
    (c.setup env args).state.setup env2 args2 =
      ⟨(c.setup env args).state, 0, 0, Except.ok (some true)⟩ := by
  cases hco : ((c.recordName args)._create_cluster env).result with
  | error e => simp [CCMCluster.setup, hinit, hchk, hco]
  | ok u => simp [CCMCluster.setup, hinit, hchk, hco]

/-- C1 witness: the double-setup theorem applied at the concrete one-node
cluster with a passing state check. -/
theorem setup_twice_single_create_witness :
    cOne.initialized = false ∧
    ((cOne.recordName ["tc2"])._check_state envOk).result = Except.ok () ∧
    ((cOne.setup envOk ["tc2"]).creates = 1 ∧
      (cOne.setup envOk ["tc2"]).state.initialized = true ∧
      (cOne.setup envOk ["tc2"]).state.setup envOk ["tc3"] =
        ⟨(cOne.setup envOk ["tc2"]).state, 0, 0, Except.ok (some true)⟩) :=
  ⟨rfl, rfl, setup_twice_single_create cOne envOk envOk ["tc2"] ["tc3"] rfl rfl⟩

/-- C7: when the state check passed but cluster creation raised or
aborted, setup still sets the initialized flag (the try/finally), the
failure propagates, and a subsequent setup call is a no-op. -/
theorem setup_initialized_despite_create_failure (c : CCMCluster) (env env2 : Env)
    (args args2 : List String) (e : PyErr)
    (hinit : c.initialized = false)
    (hchk : ((c.recordName args)._check_state env).result = Except.ok ())
    (hcr : ((c.recordName args)._create_cluster env).result = Except.error e) :
    (c.setup env args).state.initialized = true ∧
    (c.setup env args).result = Except.error e ∧
    (c.setup env args).state.setup env2 args2 =
      ⟨(c.setup env args).state, 0, 0, Except.ok (some true)⟩ := by
  simp [CCMCluster.setup, hinit, hchk, hcr]

/-- C7 witness: the theorem applied where creation aborts with exit
code 7 after a passing state check. -/
theorem setup_initialized_despite_create_failure_witness :
    cOne.initialized = false ∧
    ((cOne.recordName ["tc2"])._check_state envFail).result = Except.ok () ∧
    ((cOne.recordName ["tc2"])._create_cluster envFail).result =
      Except.error (PyErr.abort 7) ∧
    ((cOne.setup envFail ["tc2"]).state.initialized = true ∧
      (cOne.setup envFail ["tc2"]).result = Except.error (PyErr.abort 7) ∧
      (cOne.setup envFail ["tc2"]).state.setup envFail ["tc3"] =
        ⟨(cOne.setup envFail ["tc2"]).state, 0, 0, Except.ok (some true)⟩) :=
  ⟨rfl, rfl, rfl,
    setup_initialized_despite_create_failure cOne envFail envFail ["tc2"] ["tc3"]
      (PyErr.abort 7) rfl rfl rfl⟩

/-- C8: teardown on an initialized cluster re-marks the initialized flag
True instead of clearing it, so a further setup call is still a no-op and
the fixture is single-use per process. -/
theorem teardown_keeps_initialized (c : CCMCluster) (env env2 : Env)
    (args2 : List String) (h : c.initialized = true) :
    (c.teardown env).state.initialized = true ∧
    (c.teardown env).state.setup env2 args2 =
      ⟨(c.teardown env).state, 0, 0, Except.ok (some true)⟩ := by
  simp [CCMCluster.teardown, CCMCluster.setup, h]

/-- C8 witness: the teardown theorem applied at the concrete initialized
cluster. -/
theorem teardown_keeps_initialized_witness :
    cInit.initialized = true ∧
    ((cInit.teardown envDefault).state.initialized = true ∧
      (cInit.teardown envDefault).state.setup envDefault [] =
        ⟨(cInit.teardown envDefault).state, 0, 0, Except.ok (some true)⟩) :=
  ⟨rfl, teardown_keeps_initialized cInit envDefault envDefault [] rfl⟩

/-- The removal loop of _teardown_loopbacks, when every remove command
succeeds, removes exactly the bindings of the given index list. -/
theorem teardown_loopbacks_go_all_ok (c : CCMCluster) (env : Env)
    (hra : env.rmExit = fun _ _ => 0) (l : List Nat) :
    c._teardown_loopbacks_go env l =
      (l.map fun x => (c._mkiface x, c._mkaddr x), Except.ok ()) := by
  induction l with
  | nil => rfl
  | cons y ys ih => simp [CCMCluster._teardown_loopbacks_go, hra, ih]

/-- C10: teardown calls _teardown_loopbacks with no argument, so the
nodes parameter takes the module-level NUM_NODES default; a cluster
configured with a different node count still has exactly the three
default-node aliases removed. -/
theorem teardown_loopbacks_uses_module_default (c : CCMCluster) (env : Env)
    (hinit : c.initialized = true) (hmi : c.manage_interfaces = true)
    (_hn : ¬ c.nodes = 3) (hrm : env.removeExit = 0)
    (hra : env.rmExit = fun _ _ => 0) :
    (c.teardown env).removedAddrs =
      (List.range NUM_NODES).map (fun x => (c._mkiface x, c._mkaddr x)) ∧
    (c.teardown env).removedAddrs.length = 3 := by
  have hgo := teardown_loopbacks_go_all_ok c env hra (List.range NUM_NODES)
  have h1 : (c.teardown env).removedAddrs =
      (List.range NUM_NODES).map (fun x => (c._mkiface x, c._mkaddr x)) := by
    simp [CCMCluster.teardown, hinit, hmi, CCMCluster._remove_cluster, hrm,
      CCMCluster._teardown_loopbacks, hgo]
  refine ⟨h1, ?_⟩
  rw [h1]
  simp [NUM_NODES]

/-- C10 witness: the teardown-default theorem applied at the concrete
five-node cluster. -/
theorem teardown_loopbacks_uses_module_default_witness :
    cFive.initialized = true ∧ cFive.manage_interfaces = true ∧
    (¬ cFive.nodes = 3) ∧ envDefault.removeExit = 0 ∧
    (envDefault.rmExit = fun _ _ => 0) ∧
    ((cFive.teardown envDefault).removedAddrs =
        (List.range NUM_NODES).map (fun x => (cFive._mkiface x, cFive._mkaddr x)) ∧
      (cFive.teardown envDefault).removedAddrs.length = 3) :=
  ⟨rfl, rfl, by decide, rfl, rfl,
    teardown_loopbacks_uses_module_default cFive envDefault rfl rfl (by decide) rfl rfl⟩

end PytestCassandra
